import Mathlib

/-!
Verification of the request-orchestration core of the Vacation Agent API
(`src/app/main.py`, `src/app/db.py`).

Python strings are modelled as `List Char` (written via `String.data` on
literals) so that every operation of the source — `str.strip`, `str.split`,
`str.isdigit`, `int(...)` — is an executable structural function. Python's
dynamically typed JSON values are the inductive `PV`; Python dicts are
association lists in insertion order, which is what `dict.items()` iterates.
External collaborators (the Ollama LLM endpoint, `json.loads`, the geocoding
and weather HTTP APIs, the clock, `uuid`) are oracles: they enter as explicit
function or value parameters, and the verified definitions are the repository
code that consumes their results.
-/

/-- Python string, in character-list form. -/
abbrev PyStr := List Char

/-- Character list of a Lean string literal, used to write `PyStr` constants. -/
def pstr (s : String) : PyStr := s.data

/-- Python value as produced by `json.loads` and manipulated by
`normalize_llm_trip_dict`: `None`, booleans, integers, strings, lists and
dicts (association list in insertion order). Floats do not occur in any
verified code path. -/
inductive PV where
  | none
  | bool (b : Bool)
  | int (n : Int)
  | str (s : PyStr)
  | list (xs : List PV)
  | dict (kvs : List (PyStr × PV))

/-- Python `isinstance(v, str)`. -/
def PV.isStr : PV → Bool
  | .str _ => true
  | _ => false

/-- Python truthiness of a `PV` (`None`, `False`, `0`, `""`, `[]`, `{}` are falsy). -/
def PV.truthy : PV → Bool
  | .none => false
  | .bool b => b
  | .int n => n != 0
  | .str s => !s.isEmpty
  | .list xs => !xs.isEmpty
  | .dict kvs => !kvs.isEmpty

/-- Python `str.strip()` restricted to ASCII whitespace. -/
def pyStrip (s : PyStr) : PyStr :=
  (s.dropWhile Char.isWhitespace).reverse.dropWhile Char.isWhitespace |>.reverse

/-- Python `str.isdigit()` (ASCII): non-empty and all characters are digits. -/
def pyIsDigit (s : PyStr) : Bool :=
  !s.isEmpty && s.all Char.isDigit

/-- Python `int(s)` on a digit-only string (value is non-negative). -/
def pyToNat (s : PyStr) : Nat :=
  s.foldl (fun n c => n * 10 + (c.toNat - 48)) 0

/-- Python `s.split(sep)` for a one-character separator: keeps empty pieces. -/
def pySplit (sep : Char) (s : PyStr) : List PyStr :=
  match s with
  | [] => [[]]
  | c :: rest =>
    match pySplit sep rest with
    | [] => [[]]
    | piece :: pieces =>
      if c = sep then [] :: piece :: pieces else (c :: piece) :: pieces

/-- Python `d.get(k)`: value of the first entry with key `k`, else `None`
(dict keys are unique, so the first match is the entry). -/
def dget (d : List (PyStr × PV)) (k : PyStr) : PV :=
  match d with
  | [] => PV.none
  | kv :: rest => if kv.1 = k then kv.2 else dget rest k

/-- Python `d[k] = v`: replace the entry in place if the key is present,
else append a new entry (dict insertion order). -/
def dset (d : List (PyStr × PV)) (k : PyStr) (v : PV) : List (PyStr × PV) :=
  match d with
  | [] => [(k, v)]
  | kv :: rest => if kv.1 = k then (k, v) :: rest else kv :: dset rest k v

/-! ### Normalizer — `normalize_llm_trip_dict` (src/app/main.py lines 114-137)

`json.loads` is an oracle parameter `jd : PyStr → Option PV`;
`Option.none` models a raised decoding exception. -/

/-- Lines 116-117: coerce a digit-only string under `"days"` to an integer. -/
def normalize_days (d : List (PyStr × PV)) : List (PyStr × PV) :=
  match dget d (pstr "days") with
  | .str s => if pyIsDigit (pyStrip s) then dset d (pstr "days") (.int (pyToNat (pyStrip s))) else d
  | _ => d

/-- Lines 120-121: coerce a digit-only string under `"budget_eur"` to an integer. -/
def normalize_budget (d : List (PyStr × PV)) : List (PyStr × PV) :=
  match dget d (pstr "budget_eur") with
  | .str s => if pyIsDigit (pyStrip s) then dset d (pstr "budget_eur") (.int (pyToNat (pyStrip s))) else d
  | _ => d

/-- Lines 124-135: repair a string-valued `"interests"` field. -/
def normalize_interests (jd : PyStr → Option PV) (d : List (PyStr × PV)) : List (PyStr × PV) :=
  match dget d (pstr "interests") with
  | .str raw =>
    let s := pyStrip raw
    match jd s with
    | some parsed =>
      match parsed with
      | .list xs => dset d (pstr "interests") (.list xs)
      | _ => d
    | Option.none =>
      if s.contains ',' then
        dset d (pstr "interests")
          (.list (((pySplit ',' s).map pyStrip).filter (fun x => !x.isEmpty) |>.map PV.str))
      else
        dset d (pstr "interests") (.list (if s.isEmpty then [] else [.str s]))
  | _ => d

/-- `normalize_llm_trip_dict` (src/app/main.py lines 114-137). -/
def normalize_llm_trip_dict (jd : PyStr → Option PV) (d : List (PyStr × PV)) : List (PyStr × PV) :=
  normalize_interests jd (normalize_budget (normalize_days d))

/-! ### Data model — `ParsedTrip`, `Decision` (src/app/main.py lines 82-93) -/

/-- `ParsedTrip` (lines 82-88). `days` and `budget_eur` are validated ranges
(1-30 and 0-20000); `month` is `Optional[str | int]`, kept as a `PV` with
`PV.none` for null. -/
structure ParsedTrip where
  days : Option Nat
  month : PV
  budget_eur : Option Nat
  interests : List PyStr
  departure_city : Option PyStr
  destination : Option PyStr

/-- `Decision` (lines 91-93). -/
structure Decision where
  actions : List PyStr
  notes : List PyStr

/-- Python truthiness of an `Optional[str]` (`None` and `""` are falsy). -/
def optStrTruthy : Option PyStr → Bool
  | Option.none => false
  | some s => !s.isEmpty

/-! ### Action Planner — `decide_actions` (src/app/main.py lines 272-296) -/

/-- `decide_actions` (lines 272-296): four rules appending matched action tags
and rationale notes in a fixed order. -/
def decide_actions (parsed : ParsedTrip) : Decision :=
  let actions : List PyStr := []
  let notes : List PyStr := []
  -- `if not parsed.destination:` (line 277)
  let actions := if !optStrTruthy parsed.destination then actions ++ [pstr "need_destination"] else actions
  let notes := if !optStrTruthy parsed.destination then
      notes ++ [pstr "Destination missing -> later we will suggest options."] else notes
  -- `if parsed.month and (parsed.destination is not None):` (line 282)
  let actions := if parsed.month.truthy && parsed.destination.isSome then actions ++ [pstr "get_weather"] else actions
  let notes := if parsed.month.truthy && parsed.destination.isSome then
      notes ++ [pstr "Month present -> weather helps plan indoor/outdoor days."] else notes
  -- `if parsed.interests and (parsed.destination is not None):` (line 287)
  let actions := if !parsed.interests.isEmpty && parsed.destination.isSome then actions ++ [pstr "get_attractions"] else actions
  let notes := if !parsed.interests.isEmpty && parsed.destination.isSome then
      notes ++ [pstr "Interests present -> fetch points of interest matching interests."] else notes
  -- `if not actions:` (line 292)
  let actions' := if actions.isEmpty then actions ++ [pstr "basic_plan"] else actions
  let notes := if actions.isEmpty then notes ++ [pstr "No tool calls needed -> generate a basic plan."] else notes
  { actions := actions', notes := notes }

/-! ### Itinerary Generator — `generate_itinerary_with_llm`
(src/app/main.py lines 195-268)

The LLM transport and `json.loads` are oracles: `data : Option PV` is the
decoded response body, `Option.none` modelling a JSON decoding exception.
The verified part is the shape analysis, day-key sort, and length fitting
of lines 233-262. -/

/-- `day_key` (lines 243-245): integer formed by the digit characters of the
key, or the sentinel 999 when the key has no digits. -/
def day_key (k : PyStr) : Nat :=
  let digits := k.filter Char.isDigit
  if pyIsDigit digits then pyToNat digits else 999

/-- Line 247: `sorted(data.items(), key=lambda kv: day_key(kv[0]))` — Python's
`sorted` is a stable sort on the key, modelled by insertion sort. -/
def sort_day_items (kvs : List (PyStr × PV)) : List (PyStr × PV) :=
  List.insertionSort (fun a b => day_key a.1 ≤ day_key b.1) kvs

/-- The string content of a `PV`, when it is a string (`isinstance(v, str)`
guard of lines 237 and 248). -/
def pv_str : PV → Option PyStr
  | .str s => some s
  | _ => Option.none

/-- Shape analysis of the decoded itinerary JSON (lines 233-254): a list of
strings is used as-is; a dict is sorted by `day_key` and its string values
collected; anything else (or a dict yielding no strings) is an error. -/
def decode_itinerary (data : Option PV) : Except PyStr (List PyStr) :=
  match data with
  | Option.none => Except.error (pstr "LLM returned invalid itinerary JSON")
  | some (.list xs) =>
    if xs.all PV.isStr then
      Except.ok (xs.filterMap pv_str)
    else
      Except.error (pstr "Itinerary must be a JSON list of strings or a day-key dict")
  | some (.dict kvs) =>
    let itinerary := (sort_day_items kvs).filterMap (fun kv => pv_str kv.2)
    if itinerary.isEmpty then Except.error (pstr "Dict itinerary did not contain string values")
    else Except.ok itinerary
  | some _ => Except.error (pstr "Itinerary must be a JSON list of strings or a day-key dict")

/-- Decimal rendering of a number, as in the f-string `f"Day {i+1}: ..."`. -/
def natChars (n : Nat) : PyStr := Nat.toDigits 10 n

/-- Length fitting (lines 257-260): truncate when too long, pad with
`"Day N: Free exploration."` placeholders when too short. -/
def fit_itinerary (itinerary : List PyStr) (days : Nat) : List PyStr :=
  if itinerary.length > days then itinerary.take days
  else if itinerary.length < days then
    itinerary ++ (List.range' itinerary.length (days - itinerary.length)).map
      (fun i => pstr "Day " ++ natChars (i + 1) ++ pstr ": Free exploration.")
  else itinerary

/-- `generate_itinerary_with_llm` (lines 195-268) after the LLM call:
effective day count `parsed.days or 4` (line 196), then decode and fit. -/
def generate_itinerary_with_llm (parsed : ParsedTrip) (data : Option PV) : Except PyStr (List PyStr) :=
  let days := parsed.days.getD 4
  (decode_itinerary data).map (fun itinerary => fit_itinerary itinerary days)

/-! ### Enrichment Fetcher — `summarize_weather` (src/app/main.py lines 340-350)

`WeatherResult.daily` holds the provider's parallel per-day arrays. The
numeric temperature/precipitation values are modelled by their rendered
decimal text, since the source only ever interpolates them into an f-string;
latitude/longitude are never read by the verified logic and are omitted. -/

/-- `WeatherResult` (lines 96-100), reduced to the fields the summarizer
reads: the four parallel arrays of the `daily` dict, each `Option` to model
`daily.get(...) or []` on a missing key. -/
structure WeatherResult where
  city : PyStr
  daily_time : Option (List PyStr)
  daily_tmax : Option (List PyStr)
  daily_tmin : Option (List PyStr)
  daily_rain : Option (List PyStr)

/-- Python `sep.join(lines)`. -/
def joinSep (sep : PyStr) : List PyStr → PyStr
  | [] => []
  | [x] => x
  | x :: y :: xs => x ++ sep ++ joinSep sep (y :: xs)

/-- One line of the weather summary (line 349):
`f"{dates[i]}: {tmin[i]}–{tmax[i]}°C, rain {rain[i]}mm"`. -/
def weather_line (dates tmax tmin rain : List PyStr) (i : Nat) : PyStr :=
  dates.getD i [] ++ pstr ": " ++ tmin.getD i [] ++ pstr "–" ++ tmax.getD i []
    ++ pstr "°C, rain " ++ rain.getD i [] ++ pstr "mm"

/-- `summarize_weather` (lines 340-350): one line per day for
`min(max_days, len(dates), len(tmax), len(tmin), len(rain))` days, joined
with `" | "`, or the sentinel when no line was built. -/
def summarize_weather (weather : WeatherResult) (max_days : Nat) : PyStr :=
  let dates := weather.daily_time.getD []
  let tmax := weather.daily_tmax.getD []
  let tmin := weather.daily_tmin.getD []
  let rain := weather.daily_rain.getD []
  let n := min (min (min (min max_days dates.length) tmax.length) tmin.length) rain.length
  let lines := (List.range n).foldl (fun acc i => acc ++ [weather_line dates tmax tmin rain i]) []
  if lines.isEmpty then pstr "No forecast available." else joinSep (pstr " | ") lines

/-! ### Durable storage — `insert_plan` (src/app/db.py lines 38-74)

`insert_plan` declares ten keyword-only parameters, none with a default.
Python binds keyword arguments by name at call time: a call that omits a
required keyword-only parameter raises `TypeError` before the body runs.
The binding step is modelled explicitly by the list of keyword names the
caller passes; the row payload carries the values the body would store. -/

/-- Python exception as far as `create_plan` distinguishes them: FastAPI's
`HTTPException` (status code and detail), or any other exception
(type name and message). -/
inductive PyExc where
  | http (status : Nat) (detail : PyStr)
  | exc (ty : PyStr) (msg : PyStr)

/-- Outcome of one collaborator-backed stage: a value, or a raised exception. -/
abbrev StageRes (α : Type) := Except PyExc α

/-- The ten keyword-only parameter names of `insert_plan`
(src/app/db.py lines 38-50), all required. -/
def insert_plan_required_kwargs : List String :=
  ["plan_id", "created_at", "query_preview", "parsed", "decision", "weather",
   "attractions", "itinerary", "status", "duration_ms"]

/-- Row written to the `plans` table, reduced to the verified fields
(`plan_id`/`created_at`/`duration_ms` come from `uuid` and the clock and are
omitted). The recognized-error path passes `parsed={}`/`decision={}`,
modelled as `Option.none`. -/
structure PlanRow where
  query_preview : PyStr
  parsed : Option ParsedTrip
  decision : Option Decision
  weather : Option WeatherResult
  itinerary : List PyStr
  status : PyStr

/-- `insert_plan` as invoked with a set of keyword-argument names: the body
appends the row only when every required keyword-only parameter was bound;
a missing one raises `TypeError` (as does an unexpected keyword). -/
def insert_plan (passed : List String) (row : PlanRow) : Except PyExc PlanRow :=
  if !insert_plan_required_kwargs.all (fun p => passed.contains p) then
    Except.error (.exc (pstr "TypeError")
      (pstr "insert_plan() missing 1 required keyword-only argument: 'attractions'"))
  else if !passed.all (fun p => insert_plan_required_kwargs.contains p) then
    Except.error (.exc (pstr "TypeError") (pstr "insert_plan() got an unexpected keyword argument"))
  else
    Except.ok row

/-- The keyword names passed at both `insert_plan` call sites in `create_plan`
(src/app/main.py lines 439-449 and 495-505): nine names, `attractions` absent. -/
def create_plan_insert_kwargs : List String :=
  ["plan_id", "created_at", "query_preview", "parsed", "decision", "weather",
   "itinerary", "status", "duration_ms"]

/-! ### Orchestrator — `create_plan` (src/app/main.py lines 388-508)

The three collaborator-backed stages enter as oracle outcomes:
`parseOut` for `parse_query_with_llm` (lines 141-192), `weatherOut` for
`get_weather_daily` (lines 299-337), `itinOut` for the LLM call and decoding
inside `generate_itinerary_with_llm` (whose pure part is verified separately
above; its result feeds the response only). Timestamps, `uuid` identifiers
and durations are wall-clock effects and are not modelled. -/

/-- One record appended by `write_audit_log` (lines 353-356, call sites
422-432, 467-474, 484-491): keys absent from a given entry are `Option.none`. -/
structure AuditEntry where
  status : PyStr
  query_preview : PyStr
  parsed : Option ParsedTrip
  decision : Option Decision
  tool_calls : Option (List PyStr)
  has_weather : Option Bool
  error : Option PyExc

/-- `PlanResponse` (lines 105-111), without the `uuid` request identifier. -/
structure PlanResponse where
  summary : PyStr
  itinerary : List PyStr
  parsed : ParsedTrip
  decision : Decision
  weather : Option WeatherResult

/-- How `create_plan` terminates: returning a response, or an exception
propagating to the transport layer (a re-raised `HTTPException`, or an
uncaught exception escaping the `except Exception` handler). -/
inductive RespOutcome where
  | success (resp : PlanResponse)
  | raised (e : PyExc)

/-- Observable effects of one `create_plan` request: audit entries appended
(in order), plan rows inserted, counter increments, latency observations,
tool-call counter labels, and the terminal outcome. -/
structure Effects where
  audits : List AuditEntry
  plans : List PlanRow
  requests_total : Nat
  ok_total : Nat
  error_total : Nat
  latency_obs : Nat
  tool_calls : List PyStr
  outcome : RespOutcome

/-- The `"error"` audit entry of either exception handler (lines 467-474 and
484-491): only status, query preview and error payload. -/
def audit_err (qp : PyStr) (e : PyExc) : AuditEntry :=
  { status := pstr "error", query_preview := qp, parsed := Option.none,
    decision := Option.none, tool_calls := Option.none, has_weather := Option.none,
    error := some e }

/-- The two `except` clauses of `create_plan` (lines 463-508). An
`HTTPException` (lines 463-478): audit entry, error counter, latency
observation, re-raise. Any other exception (lines 480-508): audit entry,
error counter, latency observation, then an `insert_plan` call with the nine
keyword names of line 495 — if that call itself raises, the exception escapes
the handler; only if it returns is the generic 500 raised. -/
def handle_exception (qp : PyStr) (tcs : List PyStr) (e : PyExc) : Effects :=
  match e with
  | .http _ _ =>
    { audits := [audit_err qp e], plans := [], requests_total := 1, ok_total := 0,
      error_total := 1, latency_obs := 1, tool_calls := tcs, outcome := .raised e }
  | .exc _ _ =>
    let row : PlanRow :=
      { query_preview := qp, parsed := Option.none, decision := Option.none,
        weather := Option.none, itinerary := [], status := pstr "error" }
    match insert_plan create_plan_insert_kwargs row with
    | .ok r =>
      { audits := [audit_err qp e], plans := [r], requests_total := 1, ok_total := 0,
        error_total := 1, latency_obs := 1, tool_calls := tcs,
        outcome := .raised (.http 500 (pstr "Internal server error")) }
    | .error e2 =>
      { audits := [audit_err qp e], plans := [], requests_total := 1, ok_total := 0,
        error_total := 1, latency_obs := 1, tool_calls := tcs, outcome := .raised e2 }

/-- Success continuation of `create_plan` from line 417 on: the `"ok"` audit
entry (lines 422-432), success counter and latency observation (435-436), the
`insert_plan` call of lines 439-449 with the nine keyword names, and the
composed response (454-461). An exception from `insert_plan` is raised inside
the `try` block and lands in the `except Exception` clause, appending a second
audit entry after the `"ok"` one and observing latency a second time. -/
def create_plan_generated (qp : PyStr) (parsed : ParsedTrip) (decision : Decision)
    (tcs : List PyStr) (weather : Option WeatherResult) (itinerary : List PyStr) : Effects :=
  let okEntry : AuditEntry :=
    { status := pstr "ok", query_preview := qp, parsed := some parsed,
      decision := some decision, tool_calls := some tcs, has_weather := some weather.isSome,
      error := Option.none }
  let okRow : PlanRow :=
    { query_preview := qp, parsed := some parsed, decision := some decision,
      weather := weather, itinerary := itinerary, status := pstr "ok" }
  match insert_plan create_plan_insert_kwargs okRow with
  | .ok r =>
    { audits := [okEntry], plans := [r], requests_total := 1, ok_total := 1,
      error_total := 0, latency_obs := 1, tool_calls := tcs,
      outcome := .success
        { summary := pstr "Generated itinerary using structured input and weather data.",
          itinerary := itinerary, parsed := parsed, decision := decision, weather := weather } }
  | .error e2 =>
    let eff2 := handle_exception qp tcs e2
    { eff2 with audits := okEntry :: eff2.audits, ok_total := eff2.ok_total + 1,
                latency_obs := eff2.latency_obs + 1 }

/-- `create_plan` (src/app/main.py lines 388-508) over the oracle outcomes of
its three collaborator-backed stages. The query preview is the first 200
characters (line 398); the weather branch is guarded by
`"get_weather" in decision.actions and parsed.destination` (line 408) and
records the two tool-call labels before the fetch (lines 409-411). -/
def create_plan (query : PyStr) (parseOut : StageRes ParsedTrip)
    (weatherOut : StageRes WeatherResult) (itinOut : StageRes (List PyStr)) : Effects :=
  let qp := query.take 200
  match parseOut with
  | .error e => handle_exception qp [] e
  | .ok parsed =>
    let decision := decide_actions parsed
    if decision.actions.contains (pstr "get_weather") && optStrTruthy parsed.destination then
      match weatherOut with
      | .error e => handle_exception qp [pstr "geocoding", pstr "weather"] e
      | .ok w =>
        match itinOut with
        | .error e => handle_exception qp [pstr "geocoding", pstr "weather"] e
        | .ok itinerary =>
          create_plan_generated qp parsed decision [pstr "geocoding", pstr "weather"] (some w) itinerary
    else
      match itinOut with
      | .error e => handle_exception qp [] e
      | .ok itinerary => create_plan_generated qp parsed decision [] Option.none itinerary

/-! ### Fixtures used by concrete evaluations -/

/-- Sample query from the spec scenario. -/
def fx_query : PyStr := pstr "4 days in Lisbon in May, budget 800, food and culture, from Porto"

/-- Sample fully populated parse result. -/
def fx_parsed : ParsedTrip :=
  { days := some 4, month := .str (pstr "May"), budget_eur := some 800,
    interests := [pstr "food", pstr "culture"],
    departure_city := some (pstr "Porto"), destination := some (pstr "Lisbon") }

/-- Sample one-day weather result. -/
def fx_weather : WeatherResult :=
  { city := pstr "Lisbon", daily_time := some [pstr "2026-05-01"],
    daily_tmax := some [pstr "22.1"], daily_tmin := some [pstr "14.0"],
    daily_rain := some [pstr "0.5"] }

/-- Sample four-day itinerary as returned by a successful generator stage. -/
def fx_itin : List PyStr :=
  [pstr "Day 1: Alfama", pstr "Day 2: Belem", pstr "Day 3: Sintra", pstr "Day 4: Baixa"]

/-- A parse result with no destination, for witnesses. -/
def fx_parsed_nodest : ParsedTrip :=
  { days := some 2, month := PV.none, budget_eur := Option.none,
    interests := [], departure_city := Option.none, destination := Option.none }

/-- The comparison `sorted` uses on dict items: `day_key` of the key. -/
instance : IsTotal (PyStr × PV) (fun a b => day_key a.1 ≤ day_key b.1) :=
  ⟨fun a b => Nat.le_total (day_key a.1) (day_key b.1)⟩

instance : IsTrans (PyStr × PV) (fun a b => day_key a.1 ≤ day_key b.1) :=
  ⟨fun _ _ _ hab hbc => Nat.le_trans hab hbc⟩

/-! ### Association-list lemmas for `dget`/`dset` -/

/-- Reading back the key just assigned. -/
theorem dget_dset_self (d : List (PyStr × PV)) (k : PyStr) (v : PV) :
    dget (dset d k v) k = v := by
  induction d with
  | nil => simp [dget, dset]
  | cons hd tl ih =>
    by_cases hk : hd.1 = k
    · simp [dget, dset, hk]
    · simp [dget, dset, hk, ih]

/-- Assignment to one key leaves every other key unchanged. -/
theorem dget_dset_ne (d : List (PyStr × PV)) (k k' : PyStr) (v : PV) (hne : k' ≠ k) :
    dget (dset d k v) k' = dget d k' := by
  have hkk : ¬ k = k' := fun hc => hne hc.symm
  induction d with
  | nil => simp [dget, dset, hkk]
  | cons hd tl ih =>
    by_cases hk : hd.1 = k
    · have hd' : ¬ hd.1 = k' := by
        rw [hk]
        exact hkk
      simp [dget, dset, hk, hd', hkk]
    · by_cases hk' : hd.1 = k'
      · simp [dget, dset, hk, hk', hne]
      · simp [dget, dset, hk, hk', ih]

/-! ### Claims on the Action Planner -/

/-- Claim C5: for every valid trip-preference record with no destination, the
Action Planner's output action list contains `need_destination` and contains
neither `get_weather` nor `get_attractions`. -/
theorem no_destination_planner_actions (parsed : ParsedTrip)
    (h : parsed.destination = Option.none) :
    (pstr "need_destination") ∈ (decide_actions parsed).actions ∧
    (pstr "get_weather") ∉ (decide_actions parsed).actions ∧
    (pstr "get_attractions") ∉ (decide_actions parsed).actions := by
  refine ⟨?_, ?_, ?_⟩ <;> simp [decide_actions, optStrTruthy, h] <;> decide

/-- Witness for C5 at a concrete destination-free record. -/
theorem no_destination_planner_actions_witness :
    (pstr "need_destination") ∈ (decide_actions fx_parsed_nodest).actions ∧
    (pstr "get_weather") ∉ (decide_actions fx_parsed_nodest).actions ∧
    (pstr "get_attractions") ∉ (decide_actions fx_parsed_nodest).actions :=
  no_destination_planner_actions fx_parsed_nodest rfl

/-- Claim C6: for every trip-preference record the Action Planner returns
actions and notes of equal length, a non-empty actions list, and the fallback
`basic_plan` appears exactly when none of the three rules fired. -/
theorem decide_actions_invariants (parsed : ParsedTrip) :
    (decide_actions parsed).actions.length = (decide_actions parsed).notes.length ∧
    (decide_actions parsed).actions ≠ [] ∧
    ((pstr "basic_plan") ∈ (decide_actions parsed).actions ↔
      (optStrTruthy parsed.destination = true ∧
       (parsed.month.truthy && parsed.destination.isSome) = false ∧
       (!parsed.interests.isEmpty && parsed.destination.isSome) = false)) := by
  cases h1 : optStrTruthy parsed.destination <;>
    cases h2 : parsed.month.truthy && parsed.destination.isSome <;>
      cases h3 : !parsed.interests.isEmpty && parsed.destination.isSome <;>
        simp [decide_actions, h1, h2, h3] <;> decide

/-! ### Claims on the Itinerary Generator -/

theorem fit_itinerary_length (xs : List PyStr) (days : Nat) :
    (fit_itinerary xs days).length = days := by
  unfold fit_itinerary
  by_cases h1 : xs.length > days
  · simp [h1]
    omega
  · by_cases h2 : xs.length < days
    · simp [h1, h2]
      omega
    · simp [h1, h2]
      omega

theorem fit_itinerary_take (xs : List PyStr) (days : Nat) (h : days ≤ xs.length) :
    fit_itinerary xs days = xs.take days := by
  unfold fit_itinerary
  by_cases h1 : xs.length > days
  · simp [h1]
  · have hlen : xs.length = days := Nat.le_antisymm (Nat.not_lt.mp h1) h
    have h2 : ¬ xs.length < days := by omega
    simp [h1, h2, hlen.symm]

theorem fit_itinerary_pad (xs : List PyStr) (days : Nat) (h : xs.length < days) :
    fit_itinerary xs days = xs ++ (List.range' xs.length (days - xs.length)).map
      (fun i => pstr "Day " ++ natChars (i + 1) ++ pstr ": Free exploration.") := by
  unfold fit_itinerary
  have h1 : ¬ xs.length > days := by omega
  simp [h1, h]

theorem fit_itinerary_nil (days : Nat) :
    fit_itinerary [] days = (List.range' 0 days).map
      (fun i => pstr "Day " ++ natChars (i + 1) ++ pstr ": Free exploration.") := by
  cases days with
  | zero => simp [fit_itinerary]
  | succ n => simp [fit_itinerary]

/-- Claim C3: for every requested day count in 1-30 (default 4 when
unspecified) and every successfully decoded collaborator sequence, the
Itinerary Generator returns a list of exactly the effective day count:
truncated when too long, padded with `"Day i: Free exploration."`
placeholders when too short. -/
theorem itinerary_length_invariant (parsed : ParsedTrip) (data : Option PV) (xs : List PyStr)
    (hlo : 1 ≤ parsed.days.getD 4) (hhi : parsed.days.getD 4 ≤ 30)
    (hdec : decode_itinerary data = Except.ok xs) :
    ∃ itin : List PyStr,
      generate_itinerary_with_llm parsed data = Except.ok itin ∧
      itin.length = parsed.days.getD 4 ∧
      (parsed.days.getD 4 ≤ xs.length → itin = xs.take (parsed.days.getD 4)) ∧
      (xs.length < parsed.days.getD 4 →
        itin = xs ++ (List.range' xs.length (parsed.days.getD 4 - xs.length)).map
          (fun i => pstr "Day " ++ natChars (i + 1) ++ pstr ": Free exploration.")) := by
  refine ⟨fit_itinerary xs (parsed.days.getD 4), ?_, fit_itinerary_length xs _,
    fun h => fit_itinerary_take xs _ h, fun h => fit_itinerary_pad xs _ h⟩
  simp [generate_itinerary_with_llm, hdec, Except.map]

/-- Witness for C3: a 2-day request over a 3-entry decoded list is truncated
to length 2. -/
theorem itinerary_length_invariant_witness :
    ∃ itin : List PyStr,
      generate_itinerary_with_llm fx_parsed_nodest
          (some (.list [.str (pstr "a"), .str (pstr "b"), .str (pstr "c")])) = Except.ok itin ∧
      itin.length = fx_parsed_nodest.days.getD 4 ∧
      (fx_parsed_nodest.days.getD 4 ≤ [pstr "a", pstr "b", pstr "c"].length →
        itin = [pstr "a", pstr "b", pstr "c"].take (fx_parsed_nodest.days.getD 4)) ∧
      ([pstr "a", pstr "b", pstr "c"].length < fx_parsed_nodest.days.getD 4 →
        itin = [pstr "a", pstr "b", pstr "c"] ++
          (List.range' [pstr "a", pstr "b", pstr "c"].length
            (fx_parsed_nodest.days.getD 4 - [pstr "a", pstr "b", pstr "c"].length)).map
          (fun i => pstr "Day " ++ natChars (i + 1) ++ pstr ": Free exploration.")) :=
  itinerary_length_invariant fx_parsed_nodest
    (some (.list [.str (pstr "a"), .str (pstr "b"), .str (pstr "c")]))
    [pstr "a", pstr "b", pstr "c"] (by decide) (by decide) rfl

theorem pv_str_eq_none {v : PV} (h : v.isStr = false) : pv_str v = Option.none := by
  cases v <;> simp [pv_str] <;> simp [PV.isStr] at h

/-- Claim C10: an empty JSON list from the collaborator is accepted and padded
to exactly the effective day count of placeholders, whereas a JSON mapping
with no string values is rejected as malformed. -/
theorem empty_list_accepted_empty_dict_rejected (parsed : ParsedTrip)
    (kvs : List (PyStr × PV)) (h : ∀ kv ∈ kvs, kv.2.isStr = false) :
    generate_itinerary_with_llm parsed (some (.list [])) =
      Except.ok ((List.range' 0 (parsed.days.getD 4)).map
        (fun i => pstr "Day " ++ natChars (i + 1) ++ pstr ": Free exploration.")) ∧
    generate_itinerary_with_llm parsed (some (.dict kvs)) =
      Except.error (pstr "Dict itinerary did not contain string values") := by
  constructor
  · simp [generate_itinerary_with_llm, decode_itinerary, fit_itinerary_nil, Except.map]
  · have hnil : (sort_day_items kvs).filterMap (fun kv => pv_str kv.2) = [] := by
      rw [List.filterMap_eq_nil_iff]
      intro kv hkv
      have hkv' : kv ∈ List.insertionSort (fun a b => day_key a.1 ≤ day_key b.1) kvs := by
        simpa [sort_day_items] using hkv
      have hmem : kv ∈ kvs := (List.perm_insertionSort
        (fun a b => day_key a.1 ≤ day_key b.1) kvs).mem_iff.mp hkv'
      exact pv_str_eq_none (h kv hmem)
    simp [generate_itinerary_with_llm, decode_itinerary, hnil, Except.map]

/-- Witness for C10 at a 2-day request and a dict with a single integer value. -/
theorem empty_list_accepted_empty_dict_rejected_witness :
    generate_itinerary_with_llm fx_parsed_nodest (some (.list [])) =
      Except.ok ((List.range' 0 (fx_parsed_nodest.days.getD 4)).map
        (fun i => pstr "Day " ++ natChars (i + 1) ++ pstr ": Free exploration.")) ∧
    generate_itinerary_with_llm fx_parsed_nodest (some (.dict [(pstr "day1", .int 7)])) =
      Except.error (pstr "Dict itinerary did not contain string values") :=
  empty_list_accepted_empty_dict_rejected fx_parsed_nodest [(pstr "day1", .int 7)]
    (by intro kv hkv; simp at hkv; rw [hkv]; rfl)

/-- Claim C4 counterexample: with the mapping `{"day1000": "B", "x": "A"}` the
digitless key `"x"` carries the sentinel key 999 and sorts BEFORE `"day1000"`
(embedded integer 1000), so keys without digits do not sort last in general. -/
theorem digitless_key_not_last :
    decode_itinerary (some (.dict [(pstr "day1000", .str (pstr "B")), (pstr "x", .str (pstr "A"))]))
      = Except.ok [pstr "A", pstr "B"] ∧
    day_key (pstr "x") = 999 ∧ day_key (pstr "day1000") = 1000 :=
  ⟨rfl, rfl, rfl⟩

/-- Claim C4 (amended): on a JSON mapping the generator sorts entries by the
integer formed from the digit characters of each key — keys without digits
receiving the fixed sentinel key 999, so they sort last only among keys whose
embedded integers are below 999 — discards non-string values and collects the
remaining values in that order; `{"day2": "B", "day1": "A", "day10": "C"}`
yields A, B, C, and a mapping with no string values fails with the
malformed-itinerary error. -/
theorem dict_itinerary_day_key_order :
    (decode_itinerary (some (.dict
        [(pstr "day2", .str (pstr "B")), (pstr "day1", .str (pstr "A")),
         (pstr "day10", .str (pstr "C"))]))
      = Except.ok [pstr "A", pstr "B", pstr "C"]) ∧
    (∀ k : PyStr, k.all (fun c => !c.isDigit) = true → day_key k = 999) ∧
    (∀ kvs : List (PyStr × PV), ∃ kvs2 : List (PyStr × PV),
      kvs2.Perm kvs ∧
      kvs2.Pairwise (fun a b => day_key a.1 ≤ day_key b.1) ∧
      decode_itinerary (some (.dict kvs)) =
        (if (kvs2.filterMap (fun kv => pv_str kv.2)).isEmpty then
          Except.error (pstr "Dict itinerary did not contain string values")
         else Except.ok (kvs2.filterMap (fun kv => pv_str kv.2)))) := by
  refine ⟨rfl, ?_, ?_⟩
  · intro k hk
    have hfil : k.filter Char.isDigit = [] := by
      rw [List.filter_eq_nil_iff]
      intro c hc
      have hcd := List.all_eq_true.mp hk c hc
      simp at hcd
      simp [hcd]
    unfold day_key
    simp [hfil, pyIsDigit]
  · intro kvs
    refine ⟨sort_day_items kvs, ?_, ?_, rfl⟩
    · simpa [sort_day_items] using
        List.perm_insertionSort (fun a b => day_key a.1 ≤ day_key b.1) kvs
    · simpa [sort_day_items] using
        List.sorted_insertionSort (fun a b => day_key a.1 ≤ day_key b.1) kvs

/-- Witness for C4 at a concrete digitless key. -/
theorem dict_itinerary_day_key_order_witness : day_key (pstr "xyz") = 999 :=
  dict_itinerary_day_key_order.2.1 (pstr "xyz") (by decide)

/-! ### Claims on the Normalizer -/

/-- `normalize_days` either leaves the mapping unchanged or assigns the
`"days"` key. -/
theorem normalize_days_cases (d : List (PyStr × PV)) :
    normalize_days d = d ∨ ∃ v, normalize_days d = dset d (pstr "days") v := by
  unfold normalize_days
  cases dget d (pstr "days")
  case str s =>
    dsimp only
    by_cases hd : pyIsDigit (pyStrip s) = true
    · right
      exact ⟨.int (pyToNat (pyStrip s)), by rw [if_pos hd]⟩
    · left
      rw [if_neg hd]
  all_goals left ; rfl

/-- `normalize_budget` either leaves the mapping unchanged or assigns the
`"budget_eur"` key. -/
theorem normalize_budget_cases (d : List (PyStr × PV)) :
    normalize_budget d = d ∨ ∃ v, normalize_budget d = dset d (pstr "budget_eur") v := by
  unfold normalize_budget
  cases dget d (pstr "budget_eur")
  case str s =>
    dsimp only
    by_cases hd : pyIsDigit (pyStrip s) = true
    · right
      exact ⟨.int (pyToNat (pyStrip s)), by rw [if_pos hd]⟩
    · left
      rw [if_neg hd]
  all_goals left ; rfl

/-- `normalize_interests` either leaves the mapping unchanged or assigns the
`"interests"` key. -/
theorem normalize_interests_cases (jd : PyStr → Option PV) (d : List (PyStr × PV)) :
    normalize_interests jd d = d ∨ ∃ v, normalize_interests jd d = dset d (pstr "interests") v := by
  unfold normalize_interests
  cases dget d (pstr "interests")
  case str raw =>
    dsimp only
    cases jd (pyStrip raw)
    case none =>
      by_cases hc : (pyStrip raw).contains ',' = true
      · right
        exact ⟨.list (((pySplit ',' (pyStrip raw)).map pyStrip).filter
          (fun x => !x.isEmpty) |>.map PV.str), by dsimp only; rw [if_pos hc]⟩
      · right
        exact ⟨.list (if (pyStrip raw).isEmpty then [] else [.str (pyStrip raw)]),
          by dsimp only; rw [if_neg hc]⟩
    case some p =>
      cases p
      case list xs =>
        right
        exact ⟨.list xs, rfl⟩
      all_goals left ; rfl
  all_goals left ; rfl

theorem dget_normalize_days_ne (d : List (PyStr × PV)) (k : PyStr) (hk : k ≠ pstr "days") :
    dget (normalize_days d) k = dget d k := by
  rcases normalize_days_cases d with h | ⟨v, h⟩
  · rw [h]
  · rw [h, dget_dset_ne d _ k v hk]

theorem dget_normalize_budget_ne (d : List (PyStr × PV)) (k : PyStr) (hk : k ≠ pstr "budget_eur") :
    dget (normalize_budget d) k = dget d k := by
  rcases normalize_budget_cases d with h | ⟨v, h⟩
  · rw [h]
  · rw [h, dget_dset_ne d _ k v hk]

theorem dget_normalize_interests_ne (jd : PyStr → Option PV) (d : List (PyStr × PV))
    (k : PyStr) (hk : k ≠ pstr "interests") :
    dget (normalize_interests jd d) k = dget d k := by
  rcases normalize_interests_cases jd d with h | ⟨v, h⟩
  · rw [h]
  · rw [h, dget_dset_ne d _ k v hk]

/-- `normalize_days` is the identity when no coercible string sits under
`"days"`. -/
theorem normalize_days_noop (X : List (PyStr × PV))
    (h : ∀ s, dget X (pstr "days") = .str s → pyIsDigit (pyStrip s) = false) :
    normalize_days X = X := by
  unfold normalize_days
  cases hv : dget X (pstr "days")
  case str s =>
    dsimp only
    rw [if_neg]
    rw [h s hv]
    simp
  all_goals rfl

theorem normalize_budget_noop (X : List (PyStr × PV))
    (h : ∀ s, dget X (pstr "budget_eur") = .str s → pyIsDigit (pyStrip s) = false) :
    normalize_budget X = X := by
  unfold normalize_budget
  cases hv : dget X (pstr "budget_eur")
  case str s =>
    dsimp only
    rw [if_neg]
    rw [h s hv]
    simp
  all_goals rfl

/-- `normalize_interests` is the identity when the `"interests"` value is not
a string. -/
theorem normalize_interests_noop (jd : PyStr → Option PV) (X : List (PyStr × PV))
    (h : (dget X (pstr "interests")).isStr = false) :
    normalize_interests jd X = X := by
  unfold normalize_interests
  cases hv : dget X (pstr "interests")
  case str s =>
    rw [hv] at h
    simp [PV.isStr] at h
  all_goals rfl

/-- After `normalize_days`, any string left under `"days"` is not coercible. -/
theorem normalize_days_normal (d : List (PyStr × PV)) (s : PyStr)
    (hs : dget (normalize_days d) (pstr "days") = .str s) :
    pyIsDigit (pyStrip s) = false := by
  cases hv : dget d (pstr "days")
  case str s2 =>
    by_cases hd : pyIsDigit (pyStrip s2) = true
    · have heq : normalize_days d = dset d (pstr "days") (.int (pyToNat (pyStrip s2))) := by
        unfold normalize_days
        rw [hv]
        dsimp only
        rw [if_pos hd]
      rw [heq, dget_dset_self] at hs
      cases hs
    · have heq : normalize_days d = d := by
        unfold normalize_days
        rw [hv]
        dsimp only
        rw [if_neg hd]
      rw [heq, hv] at hs
      cases hs
      simpa using hd
  all_goals {
    have heq : normalize_days d = d := by
      unfold normalize_days
      rw [hv]
    rw [heq, hv] at hs
    cases hs }

theorem normalize_budget_normal (d : List (PyStr × PV)) (s : PyStr)
    (hs : dget (normalize_budget d) (pstr "budget_eur") = .str s) :
    pyIsDigit (pyStrip s) = false := by
  cases hv : dget d (pstr "budget_eur")
  case str s2 =>
    by_cases hd : pyIsDigit (pyStrip s2) = true
    · have heq : normalize_budget d = dset d (pstr "budget_eur") (.int (pyToNat (pyStrip s2))) := by
        unfold normalize_budget
        rw [hv]
        dsimp only
        rw [if_pos hd]
      rw [heq, dget_dset_self] at hs
      cases hs
    · have heq : normalize_budget d = d := by
        unfold normalize_budget
        rw [hv]
        dsimp only
        rw [if_neg hd]
      rw [heq, hv] at hs
      cases hs
      simpa using hd
  all_goals {
    have heq : normalize_budget d = d := by
      unfold normalize_budget
      rw [hv]
    rw [heq, hv] at hs
    cases hs }

/-- Running the interests repair twice is the same as running it once. -/
theorem normalize_interests_idem (jd : PyStr → Option PV) (X : List (PyStr × PV)) :
    normalize_interests jd (normalize_interests jd X) = normalize_interests jd X := by
  cases hv : dget X (pstr "interests")
  case str raw =>
    cases hj : jd (pyStrip raw)
    case some p =>
      cases p
      case list xs =>
        have heq : normalize_interests jd X = dset X (pstr "interests") (.list xs) := by
          unfold normalize_interests
          rw [hv]
          dsimp only
          rw [hj]
        apply normalize_interests_noop
        rw [heq, dget_dset_self]
        rfl
      all_goals {
        have heq : normalize_interests jd X = X := by
          unfold normalize_interests
          rw [hv]
          dsimp only
          rw [hj]
        rw [heq]
        exact heq }
    case none =>
      by_cases hc : (pyStrip raw).contains ',' = true
      · have heq : normalize_interests jd X = dset X (pstr "interests")
            (.list (((pySplit ',' (pyStrip raw)).map pyStrip).filter
              (fun x => !x.isEmpty) |>.map PV.str)) := by
          unfold normalize_interests
          rw [hv]
          dsimp only
          rw [hj]
          dsimp only
          rw [if_pos hc]
        apply normalize_interests_noop
        rw [heq, dget_dset_self]
        rfl
      · have heq : normalize_interests jd X = dset X (pstr "interests")
            (.list (if (pyStrip raw).isEmpty then [] else [.str (pyStrip raw)])) := by
          unfold normalize_interests
          rw [hv]
          dsimp only
          rw [hj]
          dsimp only
          rw [if_neg hc]
        apply normalize_interests_noop
        rw [heq, dget_dset_self]
        rfl
  all_goals {
    have heq : normalize_interests jd X = X := by
      unfold normalize_interests
      rw [hv]
    rw [heq]
    exact heq }

/-- Claim C7: when the `"interests"` field is a string, the Normalizer
replaces it with the decoded JSON list when decoding yields a list; when
decoding raises, with the trimmed, non-empty comma-split pieces if a comma is
present, and otherwise with the singleton of the trimmed string (empty list
when the string is blank). -/
theorem normalize_interests_string_field (jd : PyStr → Option PV)
    (d : List (PyStr × PV)) (raw : PyStr)
    (hraw : dget d (pstr "interests") = .str raw) :
    (∀ xs : List PV, jd (pyStrip raw) = some (.list xs) →
      dget (normalize_llm_trip_dict jd d) (pstr "interests") = .list xs) ∧
    (jd (pyStrip raw) = Option.none →
      dget (normalize_llm_trip_dict jd d) (pstr "interests") =
        (if (pyStrip raw).contains ',' then
          .list (((pySplit ',' (pyStrip raw)).map pyStrip).filter
            (fun x => !x.isEmpty) |>.map PV.str)
         else if (pyStrip raw).isEmpty then .list []
         else .list [.str (pyStrip raw)])) := by
  have hD : dget (normalize_budget (normalize_days d)) (pstr "interests") = .str raw := by
    rw [dget_normalize_budget_ne _ _ (by decide), dget_normalize_days_ne _ _ (by decide), hraw]
  constructor
  · intro xs hjd
    unfold normalize_llm_trip_dict normalize_interests
    rw [hD]
    dsimp only
    rw [hjd]
    dsimp only
    exact dget_dset_self _ _ _
  · intro hjd
    unfold normalize_llm_trip_dict normalize_interests
    rw [hD]
    dsimp only
    rw [hjd]
    dsimp only
    by_cases hc : (pyStrip raw).contains ',' = true
    · rw [if_pos hc, if_pos hc, dget_dset_self]
    · rw [if_neg hc, if_neg hc, dget_dset_self]
      by_cases he : (pyStrip raw).isEmpty = true
      · rw [if_pos he, if_pos he]
      · rw [if_neg he, if_neg he]

/-- Witness for C7: a decoder returning a JSON list replaces the field with
that list, and a failing decoder comma-splits `"culture, food"`. -/
theorem normalize_interests_string_field_witness :
    dget (normalize_llm_trip_dict (fun _ => some (.list [.str (pstr "hiking")]))
        [(pstr "interests", .str (pstr "x"))]) (pstr "interests")
      = .list [.str (pstr "hiking")] ∧
    dget (normalize_llm_trip_dict (fun _ => Option.none)
        [(pstr "interests", .str (pstr "culture, food"))]) (pstr "interests")
      = .list [.str (pstr "culture"), .str (pstr "food")] := by
  constructor
  · exact (normalize_interests_string_field (fun _ => some (.list [.str (pstr "hiking")]))
      [(pstr "interests", .str (pstr "x"))] (pstr "x") rfl).1 [.str (pstr "hiking")] rfl
  · have h := (normalize_interests_string_field (fun _ => Option.none)
      [(pstr "interests", .str (pstr "culture, food"))] (pstr "culture, food") rfl).2 rfl
    rw [h]
    rfl

/-- Claim C8: the Normalizer is idempotent — applying it to its own output
changes nothing, whatever the JSON decoder behaves like. -/
theorem normalize_llm_trip_dict_idem (jd : PyStr → Option PV) (d : List (PyStr × PV)) :
    normalize_llm_trip_dict jd (normalize_llm_trip_dict jd d) = normalize_llm_trip_dict jd d := by
  unfold normalize_llm_trip_dict
  have h1 : normalize_days (normalize_interests jd (normalize_budget (normalize_days d)))
      = normalize_interests jd (normalize_budget (normalize_days d)) := by
    apply normalize_days_noop
    intro s hs
    rw [dget_normalize_interests_ne jd _ _ (by decide),
        dget_normalize_budget_ne _ _ (by decide)] at hs
    exact normalize_days_normal d s hs
  rw [h1]
  have h2 : normalize_budget (normalize_interests jd (normalize_budget (normalize_days d)))
      = normalize_interests jd (normalize_budget (normalize_days d)) := by
    apply normalize_budget_noop
    intro s hs
    rw [dget_normalize_interests_ne jd _ _ (by decide)] at hs
    exact normalize_budget_normal (normalize_days d) s hs
  rw [h2]
  exact normalize_interests_idem jd (normalize_budget (normalize_days d))

/-! ### Claim on the weather summarizer -/

theorem foldl_append_eq_map {α β : Type} (f : α → β) (l : List α) (acc : List β) :
    l.foldl (fun a i => a ++ [f i]) acc = acc ++ l.map f := by
  induction l generalizing acc with
  | nil => simp
  | cons hd tl ih => simp [ih]

/-- Claim C9: the summary has one `weather_line`-formatted line per day for
exactly `min(max_days, |dates|, |tmax|, |tmin|, |rain|)` days, joined with
`" | "`, and is exactly the sentinel `"No forecast available."` when that
minimum is zero. -/
theorem summarize_weather_shape (w : WeatherResult) (max_days : Nat) :
    ∃ (n : Nat) (lines : List PyStr),
      n = min (min (min (min max_days (w.daily_time.getD []).length)
          (w.daily_tmax.getD []).length) (w.daily_tmin.getD []).length)
          (w.daily_rain.getD []).length ∧
      lines = (List.range n).map (weather_line (w.daily_time.getD []) (w.daily_tmax.getD [])
        (w.daily_tmin.getD []) (w.daily_rain.getD [])) ∧
      lines.length = n ∧
      summarize_weather w max_days =
        (if n = 0 then pstr "No forecast available." else joinSep (pstr " | ") lines) := by
  refine ⟨_, _, rfl, rfl, ?_, ?_⟩
  · rw [List.length_map, List.length_range]
  unfold summarize_weather
  dsimp only
  rw [foldl_append_eq_map]
  rw [List.nil_append]
  by_cases h : min (min (min (min max_days (w.daily_time.getD []).length)
      (w.daily_tmax.getD []).length) (w.daily_tmin.getD []).length)
      (w.daily_rain.getD []).length = 0
  · rw [if_pos h]
    rw [h]
    rfl
  · rw [if_neg h, if_neg]
    rw [List.isEmpty_eq_true]
    intro hc
    apply h
    have := congrArg List.length hc
    simpa using this

/-! ### Claims on the Orchestrator

The two claims below are settled against the code as it stands: `insert_plan`
(src/app/db.py) requires the keyword-only argument `attractions`, which
neither call site in `create_plan` (src/app/main.py lines 439-449 and
495-505) passes, so every durable-plan write raises `TypeError`. -/

/-- Claim C1 evaluated at a request whose three collaborator stages all
succeed: the `"ok"` audit entry is written and the success counter
incremented, but the durable-plan write raises `TypeError` inside the `try`
block, so no plan record is stored, a second `"error"` audit entry follows,
and the request terminates with an uncaught `TypeError` instead of the
composed response. -/
theorem create_plan_success_path_effects :
    (create_plan fx_query (.ok fx_parsed) (.ok fx_weather) (.ok fx_itin)).plans = [] ∧
    ((create_plan fx_query (.ok fx_parsed) (.ok fx_weather) (.ok fx_itin)).audits.map
      AuditEntry.status) = [pstr "ok", pstr "error"] ∧
    (create_plan fx_query (.ok fx_parsed) (.ok fx_weather) (.ok fx_itin)).ok_total = 1 ∧
    (create_plan fx_query (.ok fx_parsed) (.ok fx_weather) (.ok fx_itin)).error_total = 1 ∧
    (create_plan fx_query (.ok fx_parsed) (.ok fx_weather) (.ok fx_itin)).outcome =
      .raised (.exc (pstr "TypeError")
        (pstr "insert_plan() missing 1 required keyword-only argument: 'attractions'")) :=
  ⟨rfl, rfl, rfl, rfl, rfl⟩

/-- Claim C2 evaluated on the three outcome shapes: the all-stages-succeed
path appends TWO audit entries (the `"ok"` entry, then the `"error"` entry
caused by the failing durable write), while the recognized-upstream-failure
and unrecognized-failure paths each append exactly one. -/
theorem create_plan_audit_entry_counts :
    (create_plan fx_query (.ok fx_parsed) (.ok fx_weather) (.ok fx_itin)).audits.length = 2 ∧
    (create_plan fx_query (.error (.http 502 (pstr "Cannot reach Ollama")))
      (.ok fx_weather) (.ok fx_itin)).audits.length = 1 ∧
    (create_plan fx_query (.ok fx_parsed) (.ok fx_weather)
      (.error (.exc (pstr "ValueError") (pstr "boom")))).audits.length = 1 :=
  ⟨rfl, rfl, rfl⟩
